import Mathlib

/-!
Verification of the ImageRoller decision engine and orchestration glue.

Shallow embedding of the Python sources:
  - `imageroller/utils.py` (name template, decision logic, catalog lookup)
  - `imageroller/data.py` (ConfigData, ImageData, ServerData)
  - `imageroller/threads/roller_manager.py` (identity resolution, stop protocol)

Instants handled by the decision engine are modelled as integer seconds
(Python `datetime` subtraction yields a `timedelta`, compared against the
configured windows in seconds); calendar instants appearing in image names
are modelled by the `DateTime` structure below.
-/

namespace ImageRoller

/-- Calendar instant, mirroring the fields of Python `datetime.datetime`. -/
structure DateTime where
  year : Nat
  month : Nat
  day : Nat
  hour : Nat
  minute : Nat
  second : Nat
  microsecond : Nat
  deriving DecidableEq, Repr

/-- Gregorian leap-year test, as used by Python `calendar`/`datetime`. -/
def isLeapYear (y : Nat) : Bool :=
  (y % 4 == 0 && y % 100 != 0) || y % 400 == 0

/-- Length of a month in the proleptic Gregorian calendar. -/
def daysInMonth (y m : Nat) : Nat :=
  if m == 2 then (if isLeapYear y then 29 else 28)
  else if m == 4 || m == 6 || m == 9 || m == 11 then 30
  else 31

/-- Range invariants enforced by the `datetime.datetime` constructor
(`MINYEAR = 1`, `MAXYEAR = 9999`). -/
def DateTime.Valid (t : DateTime) : Prop :=
  1 ≤ t.year ∧ t.year ≤ 9999 ∧
  1 ≤ t.month ∧ t.month ≤ 12 ∧
  1 ≤ t.day ∧ t.day ≤ daysInMonth t.year t.month ∧
  t.hour ≤ 23 ∧ t.minute ≤ 59 ∧ t.second ≤ 59 ∧ t.microsecond ≤ 999999

instance (t : DateTime) : Decidable t.Valid := by
  unfold DateTime.Valid; infer_instance

/-- Truncation to the resolution of the name template: the template renders
year, month, day, hour and minute, so seconds and microseconds are zeroed. -/
def DateTime.truncateToMinute (t : DateTime) : DateTime :=
  { t with second := 0, microsecond := 0 }

/-- Decimal digit character for a value below ten. -/
def digitChar (n : Nat) : Char :=
  match n with
  | 0 => '0' | 1 => '1' | 2 => '2' | 3 => '3' | 4 => '4'
  | 5 => '5' | 6 => '6' | 7 => '7' | 8 => '8' | _ => '9'

/-- Numeric value of a digit character. -/
def digitVal (c : Char) : Nat := c.toNat - 48

/-- Zero-padded fixed-width decimal rendering, as produced by `strftime`
for `%Y` (width 4) and `%m`, `%d`, `%H`, `%M` (width 2). -/
def padChars : Nat → Nat → List Char
  | 0, _ => []
  | w + 1, n => padChars w (n / 10) ++ [digitChar (n % 10)]

/-- Value of a digit run, most significant digit first. -/
def digitsToNat (ds : List Char) : Nat :=
  ds.foldl (fun acc c => acc * 10 + digitVal c) 0

/-- Maximal leading digit run of a character list, with the remainder. -/
def takeDigits : List Char → List Char × List Char
  | [] => ([], [])
  | c :: cs =>
    if c.isDigit then
      let p := takeDigits cs
      (c :: p.1, p.2)
    else ([], c :: cs)

/-- Numeric field of Python `_strptime`: for the two-digit directives the
regular expression accepts one or two digits whose value lies in the
directive's range (`%m`: 1..12, `%d`: 1..31, `%H`: 0..23, `%M`: 0..59);
in this template every such field is followed by a non-digit literal, so
the match consumes the maximal digit run. -/
def parseField (lo hi : Nat) (cs : List Char) : Option (Nat × List Char) :=
  let p := takeDigits cs
  if p.1.length = 1 ∨ p.1.length = 2 then
    let v := digitsToNat p.1
    if lo ≤ v ∧ v ≤ hi then some (v, p.2) else none
  else none

/-- Year field of Python `_strptime`: `%Y` matches exactly four digits. -/
def parseYear (cs : List Char) : Option (Nat × List Char) :=
  let p := takeDigits cs
  if p.1.length = 4 then some (digitsToNat p.1, p.2) else none

/-- Expected literal character of the template. -/
def expectChar (c : Char) : List Char → Option (List Char)
  | [] => none
  | x :: xs => if x = c then some xs else none

/-- Expected literal string of the template. -/
def expectLit : List Char → List Char → Option (List Char)
  | [], cs => some cs
  | l :: ls, cs => (expectChar l cs).bind (expectLit ls)

/-- Characters of the trailing literal of `IMAGE_NAME_TEMPLATE`. -/
def suffixLit : List Char :=
  ['_', 'i', 'm', 'a', 'g', 'e', 'r', 'o', 'l', 'l', 'e', 'r']

/-- Rendering of an instant under `IMAGE_NAME_TEMPLATE`
(`%Y-%m-%d_%H-%M_imageroller`), embedding `datetime.strftime`. -/
def strftimeTemplate (t : DateTime) : String :=
  String.mk (padChars 4 t.year ++ ('-' :: (padChars 2 t.month ++
    ('-' :: (padChars 2 t.day ++ ('_' :: (padChars 2 t.hour ++
    ('-' :: (padChars 2 t.minute ++ suffixLit)))))))))

/-- Embedding of `utils.get_image_name`: format the UTC instant with
`IMAGE_NAME_TEMPLATE`. -/
def get_image_name (utcnow : DateTime) : String :=
  strftimeTemplate utcnow

/-- Embedding of `datetime.datetime.strptime(name, IMAGE_NAME_TEMPLATE)`:
match the template against the whole string, then construct the datetime
(which re-validates ranges, in particular day against month length);
fields absent from the template default to zero. Returns `none` where the
Python call raises `ValueError`. -/
def strptimeTemplate (s : String) : Option DateTime :=
  (parseYear s.data).bind fun py =>
  (expectChar '-' py.2).bind fun r1 =>
  (parseField 1 12 r1).bind fun pm =>
  (expectChar '-' pm.2).bind fun r2 =>
  (parseField 1 31 r2).bind fun pd =>
  (expectChar '_' pd.2).bind fun r3 =>
  (parseField 0 23 r3).bind fun ph =>
  (expectChar '-' ph.2).bind fun r4 =>
  (parseField 0 59 r4).bind fun pmin =>
  (expectLit suffixLit pmin.2).bind fun rest =>
  if rest = [] then
    let t : DateTime :=
      { year := py.1, month := pm.1, day := pd.1,
        hour := ph.1, minute := pmin.1, second := 0, microsecond := 0 }
    if t.Valid then some t else none
  else none

/-- Name filter of `utils._get_images`: an image is kept exactly when
`strptime(name, IMAGE_NAME_TEMPLATE)` does not raise. -/
def matchesTemplate (name : String) : Bool :=
  (strptimeTemplate name).isSome

/-- Embedding of `data.ImageData`: one remote image snapshot. The `created`
and `updated` timestamps are instants in seconds; `progress` is the
reported percentage. -/
structure ImageData where
  name : String
  image_id : String
  created : Int
  updated : Int
  status : String
  progress : Int
  deriving DecidableEq, Repr

/-- Embedding of `ImageData.saving`. -/
def ImageData.saving (im : ImageData) : Bool := im.status == "SAVING"

/-- Embedding of `ImageData.active`. -/
def ImageData.active (im : ImageData) : Bool := im.status == "ACTIVE"

/-- Decision-relevant fields of `data.ServerData`: the per-host policy. -/
structure ServerData where
  force : Bool
  save_timeout_minutes : Int
  retain_image_minutes : Int
  deriving DecidableEq, Repr

/-- Embedding of `ServerData.save_timeout_seconds`. -/
def ServerData.save_timeout_seconds (sd : ServerData) : Int :=
  sd.save_timeout_minutes * 60

/-- Embedding of `ServerData.retain_image_seconds`. -/
def ServerData.retain_image_seconds (sd : ServerData) : Int :=
  sd.retain_image_minutes * 60

/-- Action produced for a host in one pass, per the decision engine of
`utils.process_server`. -/
inductive Action where
  | createImage (name : String)
  | deleteImages (images : List ImageData)
  | wait
  | noOp
  deriving DecidableEq, Repr

/-- Embedding of `utils._is_any_in_progress`: true when any image has
status `SAVING`. -/
def is_any_in_progress (images : List ImageData) : Bool :=
  images.any fun im => im.saving

/-- Embedding of `utils._is_timed_out`: true when some image is `SAVING`,
below 100 percent progress, and its `updated` timestamp is more than the
save timeout in the past. -/
def is_timed_out (utcnow : Int) (sd : ServerData) (images : List ImageData) :
    Bool :=
  images.any fun im =>
    im.saving && im.progress < 100 &&
      sd.save_timeout_seconds < utcnow - im.updated

/-- Embedding of `utils._needs_image`: with the force flag a new image is
always needed; otherwise one is needed unless some `ACTIVE` image was
`created` within the retention window. -/
def needs_image (utcnow : Int) (sd : ServerData) (images : List ImageData) :
    Bool :=
  if sd.force then true
  else
    !(images.any fun im =>
      im.active && utcnow - im.created < sd.retain_image_seconds)

/-- Embedding of `utils._delete_expired_images`, restricted to the set of
images it requests deletion of: nothing when the force flag is set,
otherwise every `ACTIVE` image whose `updated` timestamp is more than the
retention window in the past. -/
def delete_expired_images (utcnow : Int) (sd : ServerData)
    (images : List ImageData) : List ImageData :=
  if sd.force then []
  else
    images.filter fun im =>
      im.active && sd.retain_image_seconds < utcnow - im.updated

/-- Template filter applied by `utils.get_images` via `_get_images`:
only images whose name parses under `IMAGE_NAME_TEMPLATE` are kept. -/
def filter_template_images (images : List ImageData) : List ImageData :=
  images.filter fun im => matchesTemplate im.name

/-- Decision engine of `utils.process_server`: the pure branch structure of
the pass over one host. `utcnow` is the instant of the pass in seconds and
`image_name` the name `get_image_name` renders for that instant; `images`
is the raw remote image list, filtered by the name template as in
`get_images`. -/
def decide (utcnow : Int) (image_name : String) (sd : ServerData)
    (images : List ImageData) : Action :=
  let imgs := filter_template_images images
  if is_any_in_progress imgs then
    if is_timed_out utcnow sd imgs then Action.noOp else Action.wait
  else
    if needs_image utcnow sd imgs then Action.createImage image_name
    else Action.deleteImages (delete_expired_images utcnow sd imgs)

/-- Service-catalog endpoint (`endpoints` entries of the identity
response). -/
structure Endpoint where
  region : String
  publicURL : String
  deriving DecidableEq, Repr

/-- Service-catalog entry of the identity response. -/
structure CatalogEntry where
  type : String
  name : String
  endpoints : List Endpoint
  deriving DecidableEq, Repr

/-- Embedding of `utils._lookup_public_url`: when the catalog entry matches
the expected type and name, return the `publicURL` of the first endpoint
in the host's region; otherwise (or when no endpoint matches) fall back to
the previous value so it is not overridden while looping. -/
def lookup_public_url (catalog : CatalogEntry) (cat_type cat_name region :
    String) (previous_url : Option String) : Option String :=
  if catalog.type = cat_type ∧ catalog.name = cat_name then
    match catalog.endpoints.find? (fun ep => ep.region == region) with
    | some ep => some ep.publicURL
    | none => previous_url
  else previous_url

/-- Embedding of `utils.parse_rax_id_data`: scan the service catalog once,
resolving the servers URL (type `compute`, name `cloudServersOpenStack`)
and the images URL (type `image`, name `cloudImages`) for the region. -/
def parse_rax_id_data (serviceCatalog : List CatalogEntry) (region : String) :
    Option String × Option String :=
  serviceCatalog.foldl
    (fun acc catalog =>
      (lookup_public_url catalog "compute" "cloudServersOpenStack" region
        acc.1,
       lookup_public_url catalog "image" "cloudImages" region acc.2))
    (none, none)

/-- Single-service lookup over the whole catalog, for stating that the two
URLs of `parse_rax_id_data` resolve independently. -/
def service_url (serviceCatalog : List CatalogEntry)
    (cat_type cat_name region : String) : Option String :=
  serviceCatalog.foldl
    (fun acc catalog => lookup_public_url catalog cat_type cat_name region acc)
    none

/-- Host entry as seen by identity resolution: its name and configured
region. -/
structure HostEntry where
  name : String
  region : String
  deriving DecidableEq, Repr

/-- Host with resolved endpoints, as produced by
`RollerManager.__get_identity_info` on success. -/
structure ResolvedHost where
  name : String
  servers_url : String
  images_url : String
  deriving DecidableEq, Repr

/-- Embedding of the per-host body of `RollerManager.__get_identity_info`:
both URLs must resolve, otherwise the resolver raises. -/
def resolve_host (serviceCatalog : List CatalogEntry) (host : HostEntry) :
    Except String ResolvedHost :=
  match parse_rax_id_data serviceCatalog host.region with
  | (some servers_url, some images_url) =>
    Except.ok { name := host.name, servers_url := servers_url,
                images_url := images_url }
  | _ =>
    Except.error ("Failed to determine servers_url or images_url for " ++
      host.name ++ " in region " ++ host.region)

/-- Embedding of `RollerManager.__get_identity_info`: resolve every enabled
host in order, propagating the first failure. -/
def get_identity_info (serviceCatalog : List CatalogEntry) :
    List HostEntry → Except String (List ResolvedHost)
  | [] => Except.ok []
  | host :: rest =>
    (resolve_host serviceCatalog host).bind fun r =>
      (get_identity_info serviceCatalog rest).bind fun rs =>
        Except.ok (r :: rs)

/-- Manager state after `RollerManager.__init__`: identity resolved for all
hosts and one worker per configured slot, not yet started. -/
structure Manager where
  resolved : List ResolvedHost
  rollers : List Unit
  deriving DecidableEq, Repr

/-- Embedding of `RollerManager.__init__`: `__get_identity_info` runs
before any `Roller` is constructed, so a resolution failure propagates
out of the constructor and no worker is ever created. -/
def init_manager (concurrent_workers : Nat)
    (serviceCatalog : List CatalogEntry) (hosts : List HostEntry) :
    Except String Manager :=
  (get_identity_info serviceCatalog hosts).bind fun resolved =>
    Except.ok { resolved := resolved,
                rollers := List.replicate concurrent_workers () }

/-- One run (`main` creating and running the manager): on construction
failure the run aborts and no host is processed; otherwise every resolved
host is processed. -/
def run_once (concurrent_workers : Nat)
    (serviceCatalog : List CatalogEntry) (hosts : List HostEntry) :
    Except String (List String) :=
  (init_manager concurrent_workers serviceCatalog hosts).bind fun m =>
    Except.ok (m.resolved.map fun r => r.name)

/-- Shared state guarded by `RollerManager.__stop_lock`: the stopping flag
and the work queue (`none` is the sentinel, `some h` a real host). -/
structure ManagerQueueState where
  is_stopping : Bool
  queue : List (Option String)
  deriving DecidableEq, Repr

/-- Embedding of `RollerManager.stop`: under the stop lock, if not already
stopping, enqueue one sentinel per worker and set the flag; otherwise do
nothing. The lock serialises concurrent calls, so repeated application
models any sequence of stop requests. -/
def ManagerQueueState.stop (concurrent_workers : Nat)
    (s : ManagerQueueState) : ManagerQueueState :=
  if s.is_stopping then s
  else { is_stopping := true,
         queue := s.queue ++ List.replicate concurrent_workers none }

/-- Number of sentinels in the queue. -/
def sentinel_count (s : ManagerQueueState) : Nat :=
  s.queue.countP fun v => v.isNone

/-- Embedding of `data.ConfigData`: the validated global configuration. -/
structure ConfigData where
  concurrent_workers : Int
  server_data : List ServerData
  deriving DecidableEq, Repr

/-- Embedding of `ConfigData.__init__`: raises `ValueError` when the
worker count is not positive, otherwise stores it with an empty ordered
server-data dict. -/
def ConfigData.init (concurrent_workers : Int) : Except String ConfigData :=
  if concurrent_workers ≤ 0 then
    Except.error "Concurrent workers must be greater than 0"
  else
    Except.ok { concurrent_workers := concurrent_workers, server_data := [] }

/-! Lemmas about the digit rendering and the template parser. -/

theorem digitVal_digitChar (n : Nat) (h : n ≤ 9) :
    digitVal (digitChar n) = n := by
  interval_cases n <;> decide

theorem isDigit_digitChar (n : Nat) : (digitChar n).isDigit = true := by
  unfold digitChar
  split <;> decide

theorem padChars_length (w n : Nat) : (padChars w n).length = w := by
  induction w generalizing n with
  | zero => rfl
  | succ w ih => simp [padChars, ih]

theorem padChars_all_digit (w n : Nat) :
    ∀ c ∈ padChars w n, c.isDigit = true := by
  induction w generalizing n with
  | zero => intro c hc; simp [padChars] at hc
  | succ w ih =>
    intro c hc
    simp only [padChars, List.mem_append, List.mem_singleton] at hc
    rcases hc with hc | hc
    · exact ih _ c hc
    · subst hc; exact isDigit_digitChar _

theorem digitsToNat_padChars (w n : Nat) (h : n < 10 ^ w) :
    digitsToNat (padChars w n) = n := by
  induction w generalizing n with
  | zero => simp at h; simp [h, padChars, digitsToNat]
  | succ w ih =>
    have hdiv : n / 10 < 10 ^ w := by
      rw [Nat.div_lt_iff_lt_mul (by norm_num)]
      calc n < 10 ^ (w + 1) := h
        _ = 10 ^ w * 10 := by ring
    have hmod : n % 10 ≤ 9 := by omega
    simp only [padChars, digitsToNat, List.foldl_append, List.foldl_cons,
      List.foldl_nil]
    rw [show List.foldl (fun acc c => acc * 10 + digitVal c) 0
        (padChars w (n / 10)) = digitsToNat (padChars w (n / 10)) from rfl,
      ih _ hdiv, digitVal_digitChar _ hmod]
    omega

theorem takeDigits_pad_append (w n : Nat) (c : Char) (rest : List Char)
    (hc : c.isDigit = false) :
    takeDigits (padChars w n ++ c :: rest) = (padChars w n, c :: rest) := by
  have key : ∀ ds : List Char, (∀ d ∈ ds, d.isDigit = true) →
      takeDigits (ds ++ c :: rest) = (ds, c :: rest) := by
    intro ds
    induction ds with
    | nil => intro _; simp [takeDigits, hc]
    | cons d ds ih =>
      intro hall
      have hd : d.isDigit = true := hall d (by simp)
      simp only [List.cons_append, takeDigits, hd, if_true, List.append_eq]
      rw [ih fun x hx => hall x (by simp [hx])]
  exact key _ (padChars_all_digit w n)

theorem parseYear_pad (n : Nat) (hn : n < 10000) (c : Char)
    (rest : List Char) (hc : c.isDigit = false) :
    parseYear (padChars 4 n ++ c :: rest) = some (n, c :: rest) := by
  unfold parseYear
  rw [takeDigits_pad_append 4 n c rest hc]
  simp [padChars_length, digitsToNat_padChars 4 n (by omega)]

theorem parseField_pad (lo hi n : Nat) (hn : n < 100) (hlo : lo ≤ n)
    (hhi : n ≤ hi) (c : Char) (rest : List Char) (hc : c.isDigit = false) :
    parseField lo hi (padChars 2 n ++ c :: rest) = some (n, c :: rest) := by
  unfold parseField
  rw [takeDigits_pad_append 2 n c rest hc]
  simp [padChars_length, digitsToNat_padChars 2 n (by omega), hlo, hhi]

theorem expectChar_cons (c : Char) (xs : List Char) :
    expectChar c (c :: xs) = some xs := by
  simp [expectChar]

theorem daysInMonth_le (y m : Nat) : daysInMonth y m ≤ 31 := by
  unfold daysInMonth
  split_ifs <;> omega

/-- Round-trip of the name template: `strptime` of `strftime` of a valid
instant yields the instant truncated to minute resolution. -/
theorem strptime_strftime (t : DateTime) (ht : t.Valid) :
    strptimeTemplate (strftimeTemplate t) = some t.truncateToMinute := by
  obtain ⟨y, mo, d, h, mi, s, us⟩ := t
  obtain ⟨hy1, hy2, hm1, hm2, hd1, hd2, hh, hmi, hs, hus⟩ := ht
  simp only at hy1 hy2 hm1 hm2 hd1 hd2 hh hmi hs hus
  have hd31 : d ≤ 31 := le_trans hd2 (daysInMonth_le y mo)
  have hdash : ('-').isDigit = false := by decide
  have hund : ('_').isDigit = false := by decide
  have hy := parseYear_pad y (by omega) '-'
    (padChars 2 mo ++ ('-' :: (padChars 2 d ++ ('_' :: (padChars 2 h ++
      ('-' :: (padChars 2 mi ++
        ('_' :: ['i', 'm', 'a', 'g', 'e', 'r', 'o', 'l', 'l', 'e', 'r'])))))))) hdash
  have hmo := parseField_pad 1 12 mo (by omega) hm1 hm2 '-'
    (padChars 2 d ++ ('_' :: (padChars 2 h ++
      ('-' :: (padChars 2 mi ++
        ('_' :: ['i', 'm', 'a', 'g', 'e', 'r', 'o', 'l', 'l', 'e', 'r'])))))) hdash
  have hd' := parseField_pad 1 31 d (by omega) hd1 hd31 '_'
    (padChars 2 h ++ ('-' :: (padChars 2 mi ++
      ('_' :: ['i', 'm', 'a', 'g', 'e', 'r', 'o', 'l', 'l', 'e', 'r'])))) hund
  have hh' := parseField_pad 0 23 h (by omega) (Nat.zero_le h) hh '-'
    (padChars 2 mi ++
      ('_' :: ['i', 'm', 'a', 'g', 'e', 'r', 'o', 'l', 'l', 'e', 'r'])) hdash
  have hmi' := parseField_pad 0 59 mi (by omega) (Nat.zero_le mi) hmi '_'
    ['i', 'm', 'a', 'g', 'e', 'r', 'o', 'l', 'l', 'e', 'r'] hund
  have hlit : expectLit
      ['_', 'i', 'm', 'a', 'g', 'e', 'r', 'o', 'l', 'l', 'e', 'r']
      ('_' :: ['i', 'm', 'a', 'g', 'e', 'r', 'o', 'l', 'l', 'e', 'r']) =
      some [] := by decide
  have hvalid : DateTime.Valid
      { year := y, month := mo, day := d, hour := h, minute := mi,
        second := 0, microsecond := 0 } :=
    ⟨hy1, hy2, hm1, hm2, hd1, hd2, hh, hmi, Nat.zero_le 59,
      Nat.zero_le 999999⟩
  unfold strftimeTemplate strptimeTemplate
  simp only [suffixLit]
  simp only [hy, Option.some_bind, expectChar_cons, hmo, hd', hh',
    hmi', hlit, DateTime.truncateToMinute]
  simp [hvalid]

/-! Lemmas about the decision engine. -/

theorem mem_filter_template (images : List ImageData) (im : ImageData) :
    im ∈ filter_template_images images ↔
      im ∈ images ∧ matchesTemplate im.name = true := by
  simp [filter_template_images, List.mem_filter]

theorem is_any_in_progress_iff (images : List ImageData) :
    is_any_in_progress images = true ↔ ∃ im ∈ images, im.saving = true := by
  simp [is_any_in_progress, List.any_eq_true]

theorem decide_eq (utcnow : Int) (image_name : String) (sd : ServerData)
    (images : List ImageData) :
    decide utcnow image_name sd images =
      if is_any_in_progress (filter_template_images images) then
        (if is_timed_out utcnow sd (filter_template_images images) then
          Action.noOp
        else Action.wait)
      else if needs_image utcnow sd (filter_template_images images) then
        Action.createImage image_name
      else
        Action.deleteImages
          (delete_expired_images utcnow sd (filter_template_images images)) :=
  rfl

theorem no_saving_filtered (images : List ImageData)
    (hns : ∀ im ∈ images, matchesTemplate im.name = true →
      im.saving = false) :
    is_any_in_progress (filter_template_images images) = false := by
  rw [Bool.eq_false_iff]
  intro hcontra
  obtain ⟨im, him, hsav⟩ := (is_any_in_progress_iff _).mp hcontra
  obtain ⟨him1, him2⟩ := (mem_filter_template _ _).mp him
  rw [hns im him1 him2] at hsav
  cases hsav

theorem needs_image_false_of_fresh (utcnow : Int) (sd : ServerData)
    (images : List ImageData) (hf : sd.force = false)
    (hfresh : ∃ im ∈ images, matchesTemplate im.name = true ∧
      im.active = true ∧ utcnow - im.created < sd.retain_image_seconds) :
    needs_image utcnow sd (filter_template_images images) = false := by
  obtain ⟨im, him, hmt, hact, hlt⟩ := hfresh
  have him2 : im ∈ filter_template_images images :=
    (mem_filter_template _ _).mpr ⟨him, hmt⟩
  have hany : (filter_template_images images).any
      (fun im => im.active &&
        Decidable.decide (utcnow - im.created < sd.retain_image_seconds)) =
      true :=
    List.any_eq_true.mpr ⟨im, him2, by simp [hact, hlt]⟩
  simp [needs_image, hf, hany]

/-! Claim theorems. -/

/-- C1, counterexample to the claim as stated: with `forceFlag = true` and a
template-matching image in status `SAVING` within the save timeout, the
pass waits instead of creating an image. -/
theorem claim_C1_counterexample :
    decide 100000 "2020-05-07_03-05_imageroller" ⟨true, 60, 120⟩
      [⟨"2020-05-07_03-04_imageroller", "id1", 99000, 99000, "SAVING", 40⟩] =
      Action.wait ∧
    Action.wait ≠ Action.createImage "2020-05-07_03-05_imageroller" := by
  constructor
  · decide
  · decide

/-- C1, amended: with `forceFlag = true` the decision engine returns
`CreateImage` whenever no template-matching image has status `SAVING`
(the in-progress check of `process_server` runs before the force check),
and never returns a `DeleteImages` action in the same pass. -/
theorem claim_C1 (utcnow : Int) (image_name : String) (sd : ServerData)
    (images : List ImageData) (hf : sd.force = true) :
    ((∀ im ∈ images, matchesTemplate im.name = true → im.saving = false) →
      decide utcnow image_name sd images = Action.createImage image_name) ∧
    ∀ del, decide utcnow image_name sd images ≠ Action.deleteImages del := by
  have hneed : needs_image utcnow sd (filter_template_images images) =
      true := by
    simp [needs_image, hf]
  constructor
  · intro hns
    rw [decide_eq, no_saving_filtered images hns, hneed]
    simp
  · intro del
    rw [decide_eq, hneed]
    by_cases h1 : is_any_in_progress (filter_template_images images) = true
    · simp only [h1, if_true]
      split <;> simp
    · simp [h1]

/-- C1, witness. -/
theorem claim_C1_witness :
    (decide 0 "img" ⟨true, 60, 120⟩ [] = Action.createImage "img") ∧
    ∀ del, decide 0 "img" ⟨true, 60, 120⟩ [] ≠ Action.deleteImages del := by
  have h := claim_C1 0 "img" ⟨true, 60, 120⟩ [] rfl
  exact ⟨h.1 (by simp), h.2⟩

/-- C2, counterexample to the claim as stated: a template-matching `SAVING`
image past the save timeout but with `progress = 100` is not treated as
timed out (`_is_timed_out` additionally requires `progress < 100`), so the
pass waits instead of the claimed `NoOp`. -/
theorem claim_C2_counterexample :
    decide 100000 "2020-05-07_03-05_imageroller" ⟨false, 60, 120⟩
      [⟨"2020-05-07_03-04_imageroller", "id1", 0, 0, "SAVING", 100⟩] =
      Action.wait ∧
    Action.wait ≠ Action.noOp := by
  constructor
  · decide
  · decide

/-- C2, amended: when some template-matching image has status `SAVING`,
progress strictly below 100, and its `updated` timestamp more than the
save timeout in the past, the pass returns `NoOp`: neither a create nor a
delete is attempted. -/
theorem claim_C2 (utcnow : Int) (image_name : String) (sd : ServerData)
    (images : List ImageData)
    (h : ∃ im ∈ images, matchesTemplate im.name = true ∧ im.saving = true ∧
      im.progress < 100 ∧
      sd.save_timeout_seconds < utcnow - im.updated) :
    decide utcnow image_name sd images = Action.noOp := by
  obtain ⟨im, him, hmt, hsav, hpr, hto⟩ := h
  have him2 : im ∈ filter_template_images images :=
    (mem_filter_template _ _).mpr ⟨him, hmt⟩
  have h1 : is_any_in_progress (filter_template_images images) = true :=
    (is_any_in_progress_iff _).mpr ⟨im, him2, hsav⟩
  have h2 : is_timed_out utcnow sd (filter_template_images images) =
      true := by
    simp only [is_timed_out, List.any_eq_true]
    exact ⟨im, him2, by simp [hsav, hpr, hto]⟩
  rw [decide_eq, h1, h2]
  simp

/-- C2, witness. -/
theorem claim_C2_witness :
    decide 100000 "2020-05-07_03-05_imageroller" ⟨false, 60, 120⟩
      [⟨"2020-05-07_03-04_imageroller", "id1", 0, 0, "SAVING", 40⟩] =
      Action.noOp :=
  claim_C2 100000 "2020-05-07_03-05_imageroller" ⟨false, 60, 120⟩
    [⟨"2020-05-07_03-04_imageroller", "id1", 0, 0, "SAVING", 40⟩]
    ⟨⟨"2020-05-07_03-04_imageroller", "id1", 0, 0, "SAVING", 40⟩,
      by decide, by decide, by decide, by decide, by decide⟩

/-- C3, counterexample to the claim as stated: with `forceFlag = false`, a
stale `ACTIVE` template-matching image and no fresher active image, the
pass issues `CreateImage` — the deletion pass is not reached, so the stale
image is not deleted (the code deletes only when a fresh active image
already exists). -/
theorem claim_C3_counterexample :
    decide 100000 "2020-05-07_03-06_imageroller" ⟨false, 60, 120⟩
      [⟨"2020-05-07_03-04_imageroller", "id1", 88000, 88000, "ACTIVE",
        100⟩] =
      Action.createImage "2020-05-07_03-06_imageroller" := by
  decide

/-- C3, amended: with `forceFlag = false`, no template-matching image in
status `SAVING`, and some template-matching `ACTIVE` image created within
the retention window (so the creation step is skipped), every
template-matching `ACTIVE` image whose `updated` timestamp is more than
the retention window in the past appears in the returned `DeleteImages`
set. -/
theorem claim_C3 (utcnow : Int) (image_name : String) (sd : ServerData)
    (images : List ImageData) (hf : sd.force = false)
    (hns : ∀ im ∈ images, matchesTemplate im.name = true →
      im.saving = false)
    (hfresh : ∃ im ∈ images, matchesTemplate im.name = true ∧
      im.active = true ∧ utcnow - im.created < sd.retain_image_seconds)
    (img : ImageData) (himg : img ∈ images)
    (hmt : matchesTemplate img.name = true) (hact : img.active = true)
    (hstale : sd.retain_image_seconds < utcnow - img.updated) :
    ∃ del, decide utcnow image_name sd images = Action.deleteImages del ∧
      img ∈ del := by
  refine ⟨delete_expired_images utcnow sd (filter_template_images images),
    ?_, ?_⟩
  · rw [decide_eq, no_saving_filtered images hns,
      needs_image_false_of_fresh utcnow sd images hf hfresh]
    simp
  · have himg2 : img ∈ filter_template_images images :=
      (mem_filter_template _ _).mpr ⟨himg, hmt⟩
    simp only [delete_expired_images, hf]
    rw [if_neg (by simp), List.mem_filter]
    exact ⟨himg2, by simp [hact, hstale]⟩

/-- C3, witness. -/
theorem claim_C3_witness :
    ∃ del, decide 100000 "2020-05-07_03-06_imageroller" ⟨false, 60, 120⟩
      [⟨"2020-05-07_03-04_imageroller", "id1", 88000, 88000, "ACTIVE", 100⟩,
       ⟨"2020-05-07_03-05_imageroller", "id2", 99990, 99990, "ACTIVE",
        100⟩] = Action.deleteImages del ∧
      (⟨"2020-05-07_03-04_imageroller", "id1", 88000, 88000, "ACTIVE",
        100⟩ : ImageData) ∈ del :=
  claim_C3 100000 "2020-05-07_03-06_imageroller" ⟨false, 60, 120⟩
    [⟨"2020-05-07_03-04_imageroller", "id1", 88000, 88000, "ACTIVE", 100⟩,
     ⟨"2020-05-07_03-05_imageroller", "id2", 99990, 99990, "ACTIVE", 100⟩]
    rfl
    (by decide)
    ⟨⟨"2020-05-07_03-05_imageroller", "id2", 99990, 99990, "ACTIVE", 100⟩,
      by decide, by decide, by decide, by decide⟩
    ⟨"2020-05-07_03-04_imageroller", "id1", 88000, 88000, "ACTIVE", 100⟩
    (by decide) (by decide) (by decide) (by decide)

/-- C4: whenever the deletion pass is reached (`forceFlag = false`, no
template-matching image `SAVING`, some template-matching `ACTIVE` image
created within the retention window), the pass deletes exactly the
template-matching `ACTIVE` images whose `updated` timestamp is more than
the retention window in the past, and no other image; with the force flag
set, `_delete_expired_images` deletes nothing. -/
theorem claim_C4 (utcnow : Int) (image_name : String) (sd : ServerData)
    (images : List ImageData) (hf : sd.force = false)
    (hns : ∀ im ∈ images, matchesTemplate im.name = true →
      im.saving = false)
    (hfresh : ∃ im ∈ images, matchesTemplate im.name = true ∧
      im.active = true ∧ utcnow - im.created < sd.retain_image_seconds) :
    (∃ del, decide utcnow image_name sd images = Action.deleteImages del ∧
      ∀ im, im ∈ del ↔ im ∈ images ∧ matchesTemplate im.name = true ∧
        im.active = true ∧
        sd.retain_image_seconds < utcnow - im.updated) ∧
    ∀ (now2 : Int) (sd2 : ServerData) (images2 : List ImageData),
      sd2.force = true → delete_expired_images now2 sd2 images2 = [] := by
  constructor
  · refine ⟨delete_expired_images utcnow sd (filter_template_images images),
      ?_, ?_⟩
    · rw [decide_eq, no_saving_filtered images hns,
        needs_image_false_of_fresh utcnow sd images hf hfresh]
      simp
    · intro im
      simp only [delete_expired_images, hf]
      rw [if_neg (by simp), List.mem_filter]
      constructor
      · rintro ⟨him, hcond⟩
        obtain ⟨him1, him2⟩ := (mem_filter_template _ _).mp him
        simp only [Bool.and_eq_true, decide_eq_true_eq] at hcond
        exact ⟨him1, him2, hcond.1, hcond.2⟩
      · rintro ⟨him1, him2, hact, hstale⟩
        exact ⟨(mem_filter_template _ _).mpr ⟨him1, him2⟩,
          by simp [hact, hstale]⟩
  · intro now2 sd2 images2 hforce
    simp [delete_expired_images, hforce]

/-- C4, witness. -/
theorem claim_C4_witness :
    (∃ del, decide 100000 "2020-05-07_03-06_imageroller" ⟨false, 60, 120⟩
      [⟨"2020-05-07_03-04_imageroller", "id1", 88000, 88000, "ACTIVE", 100⟩,
       ⟨"2020-05-07_03-05_imageroller", "id2", 99990, 99990, "ACTIVE",
        100⟩] = Action.deleteImages del ∧
      ∀ im, im ∈ del ↔
        im ∈ [(⟨"2020-05-07_03-04_imageroller", "id1", 88000, 88000,
            "ACTIVE", 100⟩ : ImageData),
          ⟨"2020-05-07_03-05_imageroller", "id2", 99990, 99990, "ACTIVE",
            100⟩] ∧ matchesTemplate im.name = true ∧ im.active = true ∧
        (7200 : Int) < 100000 - im.updated) ∧
    ∀ (now2 : Int) (sd2 : ServerData) (images2 : List ImageData),
      sd2.force = true → delete_expired_images now2 sd2 images2 = [] :=
  claim_C4 100000 "2020-05-07_03-06_imageroller" ⟨false, 60, 120⟩
    [⟨"2020-05-07_03-04_imageroller", "id1", 88000, 88000, "ACTIVE", 100⟩,
     ⟨"2020-05-07_03-05_imageroller", "id2", 99990, 99990, "ACTIVE", 100⟩]
    rfl
    (by decide)
    ⟨⟨"2020-05-07_03-05_imageroller", "id2", 99990, 99990, "ACTIVE", 100⟩,
      by decide, by decide, by decide, by decide⟩

/-- C5: with `forceFlag = false`, when some template-matching `ACTIVE`
image was created within the retention window (freshness measured from
`created`, not `updated`), the pass never returns `CreateImage`. -/
theorem claim_C5 (utcnow : Int) (image_name : String) (sd : ServerData)
    (images : List ImageData) (hf : sd.force = false)
    (hfresh : ∃ im ∈ images, matchesTemplate im.name = true ∧
      im.active = true ∧ utcnow - im.created < sd.retain_image_seconds) :
    ∀ n, decide utcnow image_name sd images ≠ Action.createImage n := by
  intro n h
  rw [decide_eq,
    needs_image_false_of_fresh utcnow sd images hf hfresh] at h
  by_cases h1 : is_any_in_progress (filter_template_images images) = true
  · rw [if_pos h1] at h
    revert h
    split <;> simp
  · rw [Bool.not_eq_true] at h1
    simp [h1] at h

/-- C5, witness. -/
theorem claim_C5_witness :
    decide 100000 "2020-05-07_03-06_imageroller" ⟨false, 60, 120⟩
      [⟨"2020-05-07_03-05_imageroller", "id2", 99990, 99990, "ACTIVE",
        100⟩] ≠ Action.createImage "2020-05-07_03-06_imageroller" :=
  claim_C5 100000 "2020-05-07_03-06_imageroller" ⟨false, 60, 120⟩
    [⟨"2020-05-07_03-05_imageroller", "id2", 99990, 99990, "ACTIVE", 100⟩]
    rfl
    ⟨⟨"2020-05-07_03-05_imageroller", "id2", 99990, 99990, "ACTIVE", 100⟩,
      by decide, by decide, by decide, by decide⟩
    "2020-05-07_03-06_imageroller"

/-- C6: for every valid instant `t`, parsing the name produced by
`get_image_name t` with `IMAGE_NAME_TEMPLATE` yields `t` truncated to
minute resolution (seconds and microseconds are zero after the
round-trip), and an image is considered by the decision engine exactly
when its name round-trips through this template. -/
theorem claim_C6 (t : DateTime) (ht : t.Valid) :
    strptimeTemplate (get_image_name t) = some t.truncateToMinute ∧
    t.truncateToMinute.second = 0 ∧ t.truncateToMinute.microsecond = 0 ∧
    ∀ (images : List ImageData) (im : ImageData),
      im ∈ filter_template_images images ↔
        im ∈ images ∧ (strptimeTemplate im.name).isSome := by
  refine ⟨strptime_strftime t ht, rfl, rfl, ?_⟩
  intro images im
  rw [mem_filter_template]
  simp [matchesTemplate]

/-- C6, witness. -/
theorem claim_C6_witness :
    DateTime.Valid ⟨2020, 5, 7, 3, 4, 56, 789⟩ ∧
    strptimeTemplate (get_image_name ⟨2020, 5, 7, 3, 4, 56, 789⟩) =
      some ⟨2020, 5, 7, 3, 4, 0, 0⟩ :=
  ⟨by decide, (claim_C6 ⟨2020, 5, 7, 3, 4, 56, 789⟩ (by decide)).1⟩

/-! Lemmas about the service-catalog lookup. -/

theorem parse_foldl_split (entries : List CatalogEntry) (region : String)
    (acc : Option String × Option String) :
    entries.foldl (fun acc catalog =>
      (lookup_public_url catalog "compute" "cloudServersOpenStack" region
        acc.1,
       lookup_public_url catalog "image" "cloudImages" region acc.2)) acc =
    (entries.foldl (fun a c =>
        lookup_public_url c "compute" "cloudServersOpenStack" region a)
      acc.1,
     entries.foldl (fun a c => lookup_public_url c "image" "cloudImages"
        region a) acc.2) := by
  induction entries generalizing acc with
  | nil => rfl
  | cons c cs ih => simp [List.foldl_cons, ih]

theorem lookup_none_iff (c : CatalogEntry) (ct cn region : String)
    (acc : Option String) :
    lookup_public_url c ct cn region acc = none ↔
      acc = none ∧ (c.type = ct → c.name = cn →
        ∀ ep ∈ c.endpoints, ep.region ≠ region) := by
  unfold lookup_public_url
  by_cases hm : c.type = ct ∧ c.name = cn
  · rw [if_pos hm]
    cases hfind : c.endpoints.find? (fun ep => ep.region == region) with
    | none =>
      have hall := List.find?_eq_none.mp hfind
      constructor
      · intro h; exact ⟨h, fun _ _ ep hep => by simpa using hall ep hep⟩
      · rintro ⟨h, -⟩; exact h
    | some ep =>
      constructor
      · intro h; exact absurd h (by simp)
      · rintro ⟨-, himp⟩
        exact absurd (by simpa using List.find?_some hfind)
          (himp hm.1 hm.2 ep (List.mem_of_find?_eq_some hfind))
  · rw [if_neg hm]
    constructor
    · intro h; exact ⟨h, fun h1 h2 => absurd ⟨h1, h2⟩ hm⟩
    · rintro ⟨h, -⟩; exact h

theorem foldl_lookup_none_iff (entries : List CatalogEntry)
    (ct cn region : String) : ∀ acc : Option String,
    entries.foldl (fun a c => lookup_public_url c ct cn region a) acc =
      none ↔
    acc = none ∧ ∀ c ∈ entries, c.type = ct → c.name = cn →
      ∀ ep ∈ c.endpoints, ep.region ≠ region := by
  induction entries with
  | nil => intro acc; simp
  | cons c cs ih =>
    intro acc
    rw [List.foldl_cons, ih, lookup_none_iff, List.forall_mem_cons]
    tauto

theorem lookup_some (c : CatalogEntry) (ct cn region : String)
    (acc : Option String) (url : String)
    (h : lookup_public_url c ct cn region acc = some url) :
    acc = some url ∨ (c.type = ct ∧ c.name = cn ∧
      ∃ ep ∈ c.endpoints, ep.region = region ∧ ep.publicURL = url) := by
  unfold lookup_public_url at h
  by_cases hm : c.type = ct ∧ c.name = cn
  · rw [if_pos hm] at h
    cases hfind : c.endpoints.find? (fun ep => ep.region == region) with
    | none => rw [hfind] at h; exact Or.inl h
    | some ep =>
      rw [hfind] at h
      exact Or.inr ⟨hm.1, hm.2, ep, List.mem_of_find?_eq_some hfind,
        by simpa using List.find?_some hfind, Option.some.inj h⟩
  · rw [if_neg hm] at h; exact Or.inl h

theorem foldl_lookup_some (entries : List CatalogEntry)
    (ct cn region : String) : ∀ (acc : Option String) (url : String),
    entries.foldl (fun a c => lookup_public_url c ct cn region a) acc =
      some url →
    acc = some url ∨ ∃ c ∈ entries, c.type = ct ∧ c.name = cn ∧
      ∃ ep ∈ c.endpoints, ep.region = region ∧ ep.publicURL = url := by
  induction entries with
  | nil => intro acc url h; exact Or.inl h
  | cons c cs ih =>
    intro acc url h
    rw [List.foldl_cons] at h
    rcases ih _ _ h with hacc | ⟨c2, hc2, rest⟩
    · rcases lookup_some c ct cn region acc url hacc with h1 | h2
      · exact Or.inl h1
      · exact Or.inr ⟨c, List.mem_cons_self c cs, h2⟩
    · exact Or.inr ⟨c2, List.mem_cons_of_mem _ hc2, rest⟩

/-- C7: the servers URL and images URL resolve independently over the
service catalog: `parse_rax_id_data` is the pair of the two single-service
lookups, each lookup is `none` exactly when no catalog entry of the
expected type and name has an endpoint in the region, a resolved URL is
the `publicURL` of an endpoint in the region of a matching entry, and a
host can have one URL resolved while the other is missing. -/
theorem claim_C7 (serviceCatalog : List CatalogEntry) (region : String) :
    (parse_rax_id_data serviceCatalog region =
      (service_url serviceCatalog "compute" "cloudServersOpenStack" region,
       service_url serviceCatalog "image" "cloudImages" region)) ∧
    (∀ ct cn, service_url serviceCatalog ct cn region = none ↔
      ∀ c ∈ serviceCatalog, c.type = ct → c.name = cn →
        ∀ ep ∈ c.endpoints, ep.region ≠ region) ∧
    (∀ ct cn url, service_url serviceCatalog ct cn region = some url →
      ∃ c ∈ serviceCatalog, c.type = ct ∧ c.name = cn ∧
        ∃ ep ∈ c.endpoints, ep.region = region ∧ ep.publicURL = url) ∧
    ∃ (cat2 : List CatalogEntry) (reg2 : String),
      (parse_rax_id_data cat2 reg2).1 = none ∧
      ((parse_rax_id_data cat2 reg2).2).isSome = true := by
  refine ⟨?_, ?_, ?_, ?_⟩
  · unfold parse_rax_id_data service_url
    exact parse_foldl_split serviceCatalog region (none, none)
  · intro ct cn
    unfold service_url
    rw [foldl_lookup_none_iff]
    simp
  · intro ct cn url h
    unfold service_url at h
    rcases foldl_lookup_some serviceCatalog ct cn region none url h with
      h1 | h2
    · exact absurd h1 (by simp)
    · exact h2
  · exact ⟨[⟨"image", "cloudImages", [⟨"ORD", "http-img"⟩]⟩], "ORD",
      by decide, by decide⟩

/-! Lemmas about identity resolution and the run. -/

theorem error_bind {α β : Type} (e : String) (f : α → Except String β) :
    (Except.error e).bind f = Except.error e := rfl

theorem ok_bind {α β : Type} (a : α) (f : α → Except String β) :
    (Except.ok a).bind f = f a := rfl

theorem resolve_host_error (serviceCatalog : List CatalogEntry)
    (host : HostEntry)
    (hbad : (parse_rax_id_data serviceCatalog host.region).1 = none ∨
      (parse_rax_id_data serviceCatalog host.region).2 = none) :
    ∃ e, resolve_host serviceCatalog host = Except.error e := by
  unfold resolve_host
  rcases hp : parse_rax_id_data serviceCatalog host.region with ⟨a, b⟩
  rw [hp] at hbad
  match a, b with
  | none, _ => exact ⟨_, rfl⟩
  | some _, none => exact ⟨_, rfl⟩
  | some _, some _ => simp at hbad

theorem get_identity_info_error (serviceCatalog : List CatalogEntry)
    (hosts : List HostEntry)
    (h : ∃ host ∈ hosts,
      (parse_rax_id_data serviceCatalog host.region).1 = none ∨
      (parse_rax_id_data serviceCatalog host.region).2 = none) :
    ∃ e, get_identity_info serviceCatalog hosts = Except.error e := by
  induction hosts with
  | nil => simp at h
  | cons host rest ih =>
    rcases h with ⟨h0, hmem, hbad⟩
    rcases List.mem_cons.mp hmem with rfl | hmem2
    · obtain ⟨e, he⟩ := resolve_host_error serviceCatalog h0 hbad
      exact ⟨e, by simp [get_identity_info, he, error_bind]⟩
    · obtain ⟨e, he⟩ := ih ⟨h0, hmem2, hbad⟩
      cases hr : resolve_host serviceCatalog host with
      | error e2 => exact ⟨e2, by simp [get_identity_info, hr, error_bind]⟩
      | ok r =>
        exact ⟨e, by simp [get_identity_info, hr, ok_bind, he, error_bind]⟩

/-- C8: when any enabled host is missing either its servers URL or its
images URL after endpoint resolution, identity resolution raises, manager
construction fails (no worker is ever created), and the run aborts with no
host processed. -/
theorem claim_C8 (concurrent_workers : Nat)
    (serviceCatalog : List CatalogEntry) (hosts : List HostEntry)
    (h : ∃ host ∈ hosts,
      (parse_rax_id_data serviceCatalog host.region).1 = none ∨
      (parse_rax_id_data serviceCatalog host.region).2 = none) :
    (∃ e, run_once concurrent_workers serviceCatalog hosts =
      Except.error e) ∧
    (∀ m, init_manager concurrent_workers serviceCatalog hosts ≠
      Except.ok m) ∧
    ∀ processed, run_once concurrent_workers serviceCatalog hosts ≠
      Except.ok processed := by
  obtain ⟨e, he⟩ := get_identity_info_error serviceCatalog hosts h
  have hinit : init_manager concurrent_workers serviceCatalog hosts =
      Except.error e := by
    simp [init_manager, he, error_bind]
  have hrun : run_once concurrent_workers serviceCatalog hosts =
      Except.error e := by
    simp [run_once, hinit, error_bind]
  refine ⟨⟨e, hrun⟩, ?_, ?_⟩
  · intro m hcontra
    rw [hinit] at hcontra
    cases hcontra
  · intro processed hcontra
    rw [hrun] at hcontra
    cases hcontra

/-- C8, witness. -/
theorem claim_C8_witness :
    (∃ e, run_once 1 [] [⟨"host-a", "ORD"⟩] = Except.error e) ∧
    (∀ m, init_manager 1 [] [⟨"host-a", "ORD"⟩] ≠ Except.ok m) ∧
    ∀ processed, run_once 1 [] [⟨"host-a", "ORD"⟩] ≠
      Except.ok processed :=
  claim_C8 1 [] [⟨"host-a", "ORD"⟩]
    ⟨⟨"host-a", "ORD"⟩, by decide, Or.inl (by decide)⟩

/-! Lemmas about the stop protocol. -/

theorem stop_is_stopping (w : Nat) (s : ManagerQueueState) :
    (ManagerQueueState.stop w s).is_stopping = true := by
  by_cases h : s.is_stopping = true
  · simp [ManagerQueueState.stop, h]
  · simp [ManagerQueueState.stop, h]

theorem stop_of_stopping (w : Nat) (s : ManagerQueueState)
    (h : s.is_stopping = true) : ManagerQueueState.stop w s = s := by
  simp [ManagerQueueState.stop, h]

theorem countP_replicate_none (w : Nat) :
    (List.replicate w (none : Option String)).countP
      (fun v => v.isNone) = w := by
  induction w with
  | zero => rfl
  | succ w ih => simp [List.replicate_succ, List.countP_cons, ih]

/-- C9: the stop protocol is idempotent: from a state that is not yet
stopping and holds no sentinel, any positive number of stop requests
leaves exactly `concurrent_workers` sentinels in the queue, and a second
stop on any state is a no-op (the `is_stopping` flag, read and written
under the stop lock, guards the sentinel enqueue). -/
theorem claim_C9 (concurrent_workers k : Nat) (s : ManagerQueueState)
    (h0 : s.is_stopping = false) (hq : sentinel_count s = 0)
    (hk : 1 ≤ k) :
    sentinel_count ((ManagerQueueState.stop concurrent_workers)^[k] s) =
      concurrent_workers ∧
    ∀ s2, ManagerQueueState.stop concurrent_workers
        (ManagerQueueState.stop concurrent_workers s2) =
      ManagerQueueState.stop concurrent_workers s2 := by
  constructor
  · obtain ⟨j, rfl⟩ : ∃ j, k = j + 1 := ⟨k - 1, by omega⟩
    rw [Function.iterate_succ_apply,
      Function.iterate_fixed
        (stop_of_stopping concurrent_workers _
          (stop_is_stopping concurrent_workers s)) j]
    have hq2 : s.queue.countP (fun v => v.isNone) = 0 := hq
    simp [ManagerQueueState.stop, h0, sentinel_count, List.countP_append,
      countP_replicate_none, hq2]
  · intro s2
    exact stop_of_stopping concurrent_workers _
      (stop_is_stopping concurrent_workers s2)

/-- C9, witness. -/
theorem claim_C9_witness :
    sentinel_count
      ((ManagerQueueState.stop 2)^[1] ⟨false, [some "host-a"]⟩) = 2 ∧
    ∀ s2, ManagerQueueState.stop 2 (ManagerQueueState.stop 2 s2) =
      ManagerQueueState.stop 2 s2 :=
  claim_C9 2 1 ⟨false, [some "host-a"]⟩ rfl (by decide) (by decide)

/-- C10: constructing `ConfigData` fails exactly when the worker count is
not positive; otherwise the stored worker count is the given one and the
server-data collection starts empty. -/
theorem claim_C10 (concurrent_workers : Int) :
    ((∃ e, ConfigData.init concurrent_workers = Except.error e) ↔
      concurrent_workers ≤ 0) ∧
    ∀ c, ConfigData.init concurrent_workers = Except.ok c →
      c.concurrent_workers = concurrent_workers ∧ c.server_data = [] := by
  constructor
  · constructor
    · rintro ⟨e, he⟩
      by_contra hn
      simp only [ConfigData.init] at he
      rw [if_neg hn] at he
      cases he
    · intro hn
      exact ⟨_, by simp only [ConfigData.init]; rw [if_pos hn]⟩
  · intro c hc
    simp only [ConfigData.init] at hc
    split_ifs at hc with h1
    all_goals cases hc
    exact ⟨rfl, rfl⟩

end ImageRoller
